import Mathlib

/-!
Shallow embedding of the real-time voice session pipeline of
`src/App.tsx` (voice-interactive-translation-assistant).

The embedding models the mutable refs and React state of the `App`
component as one record (`AppState`), and the event handlers
(`cleanup`, `onmessage`, `onerror`, the interruption block, the
playback-scheduling block) as pure state-transition functions.  Times
and durations of the Web Audio clock are modelled as rationals; guarded
(`try`/`catch`) release calls are modelled by threading a list of
swallowed error messages, so that "a failure is swallowed and later
steps still run" is visible in the definitions.  The per-sample PCM
codec (`createBlob` / `decodeAudioData` in `utils.ts`, a file not
present under `src/`) is modelled from the spec, section 4.1.
-/

namespace VoiceApp

/-- Connection status of the single live session (the `SessionStatus`
enum imported from `types.ts`, with exactly the values `App.tsx` uses:
`IDLE`, `CONNECTING`, `CONNECTED`, `ERROR`). -/
inductive SessionStatus where
  | IDLE
  | CONNECTING
  | CONNECTED
  | ERROR
  deriving DecidableEq, Repr

/-- One committed transcript line (`TranscriptionEntry` of `types.ts`):
`App.tsx` appends `{ role: 'user' | 'model', text, timestamp: Date.now() }`
objects, so the role is a plain string and the timestamp a number. -/
structure TranscriptionEntry where
  role : String
  text : String
  timestamp : Nat
  deriving DecidableEq, Repr

/-- An `AudioBufferSourceNode` held in `activeSourcesRef`.  `stopped`
records that `source.stop()` ran successfully; `finished` marks a node
whose playback already ended, on which `stop()` throws an
`InvalidStateError` (the code swallows it with `try ... catch (e) {}`). -/
structure SourceNode where
  id : Nat
  stopped : Bool
  finished : Bool
  deriving DecidableEq, Repr

/-- A closable resource handle (the live session object, an
`AudioContext`): `closeFails` says whether its `close()` call would
throw or reject.  `App.tsx` guards every such close, so a failing
handle only produces a swallowed error. -/
structure Handle where
  closeFails : Bool
  deriving DecidableEq, Repr

/-- The mutable state of the `App` component: the React state hooks and
the `useRef` cells that the session callbacks read and write.
`currentTimeOut` is the clock (`currentTime`) of the playback
`AudioContext`; it is kept even while `audioContextOut` is `none` so
that clock comparisons stay stateable.  `nextSourceId` supplies fresh
identities for created `AudioBufferSourceNode`s. -/
structure AppState where
  status : SessionStatus
  transcriptions : List TranscriptionEntry
  isModelSpeaking : Bool
  errorMessage : Option String
  hasRecorded : Bool
  audioContextIn : Option Handle
  audioContextOut : Option Handle
  currentTimeOut : ℚ
  sessionRef : Option Handle
  streamTracks : Option (List Nat)
  nextStartTime : ℚ
  activeSources : List SourceNode
  transcriptionBuffer : String × String
  nextSourceId : Nat
  deriving DecidableEq, Repr

/-- The playback clock advancing by `dt` seconds between handler runs
(no code runs; `ctx.currentTime` simply grows). -/
def tick (s : AppState) (dt : ℚ) : AppState :=
  { s with currentTimeOut := s.currentTimeOut + dt }

/-- Lines 156 and 165-166 of `App.tsx` as one scheduling step: the
chunk is started at `max nextStartTime currentTime` and the cursor
advances to that start plus the chunk's duration.  Returns
`(start, new cursor)`. -/
def enqueueChunk (next ct d : ℚ) : ℚ × ℚ :=
  (max next ct, max next ct + d)

/-- `activeSourcesRef.current.forEach(source => { try { source.stop() } catch (e) {} })`:
every live node is stopped; a node that already finished throws and the
error is swallowed into the returned log, but iteration continues. -/
def stopAllGuarded (srcs : List SourceNode) : List SourceNode × List String :=
  (srcs.map fun src => if src.finished then src else { src with stopped := true },
   srcs.filterMap fun src =>
     if src.finished then some "InvalidStateError: cannot stop a finished source" else none)

/-- Lines 171-176 of `App.tsx`: the `serverContent.interrupted` block.
Stops every active source (guarded), clears the set, zeroes the cursor
and lowers the model-speaking flag.  Also returns the nodes as they
look after the `forEach` and the swallowed errors. -/
def onInterrupted (s : AppState) : AppState × List SourceNode × List String :=
  let halted := (stopAllGuarded s.activeSources).1
  let log := (stopAllGuarded s.activeSources).2
  ({ s with activeSources := [], nextStartTime := 0, isModelSpeaking := false },
   halted, log)

/-- Lines 46-72 of `App.tsx`: the `cleanup` callback.  Each release is
guarded in the source (`try`/`catch` around `session.close()` and
`source.stop()`, `.catch(() => {})` on the `AudioContext.close()`
promises; `MediaStreamTrack.stop()` cannot throw), so a failing release
adds a message to the swallowed-error log and the remaining releases
still run.  Returns the new state and that log. -/
def cleanupE (s : AppState) : AppState × List String :=
  let log1 : List String :=
    match s.sessionRef with
    | some h => if h.closeFails then ["session close failed"] else []
    | none => []
  let log2 : List String := log1 ++ (s.activeSources.filterMap fun src =>
    if src.finished then some "InvalidStateError: cannot stop a finished source" else none)
  let log3 : List String := log2 ++ (match s.audioContextIn with
    | some h => if h.closeFails then ["input context close failed"] else []
    | none => [])
  let log4 : List String := log3 ++ (match s.audioContextOut with
    | some h => if h.closeFails then ["output context close failed"] else []
    | none => [])
  ({ s with
      sessionRef := none
      streamTracks := none
      activeSources := []
      audioContextIn := none
      audioContextOut := none
      status := SessionStatus.IDLE
      isModelSpeaking := false
      hasRecorded := false }, log4)

/-- Lines 178-182 of `App.tsx`: the `onerror` callback.  It only sets
the status and the surfaced message; it does not release anything. -/
def onerror (s : AppState) : AppState :=
  { s with status := SessionStatus.ERROR
           errorMessage := some "Voice interface link failed." }

/-- Lines 183-186 of `App.tsx`: the `onclose` callback runs `cleanup`. -/
def onclose (s : AppState) : AppState :=
  (cleanupE s).1

/-- Lines 78-81 of `App.tsx`: the synchronous opening of
`handleStartSession` — clear the surfaced error message, move to
`CONNECTING`. -/
def handleStartSessionBegin (s : AppState) : AppState :=
  { s with errorMessage := none, status := SessionStatus.CONNECTING }

/-- Lines 161-164 of `App.tsx`: the `onended` completion of a playback
node — remove it from `activeSources`; if the set became empty, lower
the model-speaking flag. -/
def onSourceEnded (s : AppState) (i : Nat) : AppState :=
  let remaining := s.activeSources.filter fun src => src.id ≠ i
  { s with activeSources := remaining,
           isModelSpeaking := if remaining.length = 0 then false else s.isModelSpeaking }

/-- An inline audio payload (`message.serverContent.modelTurn.parts[0].inlineData.data`).
Modelled from the spec: `decode` of `utils.ts` is not under `src/`;
spec section 4.1 says it is a pure base64 decode that "fails with
`DecodeError` on malformed input", and `decodeAudioData` interprets the
bytes as 16-bit little-endian PCM and "produces a buffer whose duration
= sampleCount / sampleRate".  So a payload is abstracted to its base64
well-formedness and the number of decoded samples. -/
structure AudioPayload where
  valid : Bool
  sampleCount : Nat
  deriving DecidableEq, Repr

/-- Duration in seconds of the decoded buffer: `App.tsx` calls
`decodeAudioData(bytes, ctx, 24000, 1)`, so duration = samples / 24000. -/
def AudioPayload.duration (p : AudioPayload) : ℚ :=
  (p.sampleCount : ℚ) / 24000

/-- The fields of a `LiveServerMessage` that the `onmessage` handler of
`App.tsx` reads: optional partial input/output transcription text, the
`turnComplete` flag, the optional inline audio payload, and the
`interrupted` flag. -/
structure ServerMessage where
  inputTranscription : Option String
  outputTranscription : Option String
  turnComplete : Bool
  audioData : Option AudioPayload
  interrupted : Bool
  deriving DecidableEq, Repr

/-- JavaScript `String.prototype.trim()` as used on lines 141 and 145
of `App.tsx`: drop leading and trailing whitespace.  (Defined by
structural recursion over the character list so that concrete instances
evaluate; `Char.isWhitespace` stands for the JavaScript whitespace
class.) -/
def jsTrim (s : String) : String :=
  String.mk (((s.data.dropWhile Char.isWhitespace).reverse.dropWhile Char.isWhitespace).reverse)

/-- The tail of the `onmessage` handler (lines 171-176): the
`interrupted` block, reached only when the earlier audio block did not
throw. -/
def afterAudio (s : AppState) (m : ServerMessage) : AppState :=
  if m.interrupted then (onInterrupted s).1 else s

/-- Lines 130-177 of `App.tsx`: the `onmessage` handler, executed as one
step (within a single invocation the awaits do not reorder the writes
modelled here).  `ts` stands for `Date.now()`.  The returned `Bool` is
`true` when a `DecodeError` on malformed audio escaped the handler: the
source has no `try`/`catch` around `decode`/`decodeAudioData`, so the
async callback's promise rejects, and the rest of that invocation —
including the `interrupted` check — is skipped.  Note the cursor write
of line 156 happens before the decode, so it persists on failure. -/
def onmessage (s0 : AppState) (m : ServerMessage) (ts : Nat) : AppState × Bool :=
  let s1 :=
    match m.inputTranscription with
    | some t => { s0 with transcriptionBuffer :=
                    (s0.transcriptionBuffer.1 ++ t, s0.transcriptionBuffer.2) }
    | none => s0
  let s2 :=
    match m.outputTranscription with
    | some t => { s1 with transcriptionBuffer :=
                    (s1.transcriptionBuffer.1, s1.transcriptionBuffer.2 ++ t) }
    | none => s1
  let s3 :=
    if m.turnComplete then
      let input := s2.transcriptionBuffer.1
      let output := s2.transcriptionBuffer.2
      let sA :=
        if jsTrim input ≠ "" then
          { s2 with transcriptions :=
                      s2.transcriptions ++ [{ role := "user", text := input, timestamp := ts }],
                    hasRecorded := true }
        else s2
      let sB :=
        if jsTrim output ≠ "" then
          { sA with transcriptions :=
                      sA.transcriptions ++ [{ role := "model", text := output, timestamp := ts }] }
        else sA
      { sB with transcriptionBuffer := ("", "") }
    else s2
  match m.audioData with
  | some p =>
    let s4 := { s3 with isModelSpeaking := true }
    match s4.audioContextOut with
    | some _ =>
      let s5 := { s4 with nextStartTime := max s4.nextStartTime s4.currentTimeOut }
      if p.valid then
        let src : SourceNode := { id := s5.nextSourceId, stopped := false, finished := false }
        let s6 := { s5 with
          nextStartTime := s5.nextStartTime + p.duration,
          activeSources := s5.activeSources ++ [src],
          nextSourceId := s5.nextSourceId + 1 }
        (afterAudio s6 m, false)
      else
        (s5, true)
    | none => (afterAudio s4 m, false)
  | none => (afterAudio s3 m, false)

/-- The iterated scheduler cursor: `schedNext next0 ct d i` is the value
of `nextStartTimeRef` after `i` chunks have been enqueued, when chunk
`j` observed clock `ct j` and had duration `d j`. -/
def schedNext (next0 : ℚ) (ct d : ℕ → ℚ) : ℕ → ℚ
  | 0 => next0
  | i + 1 => (enqueueChunk (schedNext next0 ct d i) (ct i) (d i)).2

/-- The scheduled start time of chunk `i`: what `source.start` receives
on line 165 of `App.tsx` for the `i`-th enqueued chunk. -/
def schedStart (next0 : ℚ) (ct d : ℕ → ℚ) (i : ℕ) : ℚ :=
  (enqueueChunk (schedNext next0 ct d i) (ct i) (d i)).1

/-- Modelled from the spec: the per-sample half of `createBlob` in
`utils.ts`, which is not under `src/`.  Spec section 4.1: encode "maps
each sample to a 16-bit signed integer (`round(clamp(sample,-1,1) * 32767)`)".
`round` on ℚ is `⌊x + 1/2⌋`, matching JavaScript `Math.round`. -/
def encodeSample (x : ℚ) : ℤ :=
  round (min 1 (max (-1) x) * 32767)

/-- Modelled from the spec: the per-sample half of `decodeAudioData` in
`utils.ts`, which is not under `src/`.  Spec section 4.1: decode
"converts each sample back to float32 by dividing by 32768". -/
def decodeSample (i : ℤ) : ℚ :=
  (i : ℚ) / 32768

/-- A connected session state with all resources live, used as the
concrete base point of the counterexamples and witnesses below. -/
def demoBase : AppState :=
  { status := SessionStatus.CONNECTED
    transcriptions := []
    isModelSpeaking := false
    errorMessage := none
    hasRecorded := false
    audioContextIn := some { closeFails := false }
    audioContextOut := some { closeFails := false }
    currentTimeOut := 0
    sessionRef := some { closeFails := false }
    streamTracks := some [0]
    nextStartTime := 0
    activeSources := []
    transcriptionBuffer := ("", "")
    nextSourceId := 0 }

/-- A server message carrying only an inline audio payload (validity
`v`, `n` decoded samples) and possibly the `interrupted` flag `b`. -/
def audioMsg (v : Bool) (n : Nat) (b : Bool) : ServerMessage :=
  { inputTranscription := none, outputTranscription := none, turnComplete := false,
    audioData := some { valid := v, sampleCount := n }, interrupted := b }

/-- A server message carrying only the `turnComplete` signal. -/
def turnOnlyMsg : ServerMessage :=
  { inputTranscription := none, outputTranscription := none, turnComplete := true,
    audioData := none, interrupted := false }

/-- `demoBase` with one pending playback source. -/
def demoErrState : AppState :=
  { demoBase with activeSources := [{ id := 0, stopped := false, finished := false }] }

/-- `demoBase` with accumulated transcription text for both speakers. -/
def demoTurnState : AppState :=
  { demoBase with transcriptionBuffer := ("hello ", "bonjour") }

/-- A reachable scheduler state: from `demoBase`, one valid one-second
chunk (24000 samples at 24 kHz) is enqueued at clock 0, then the
playback clock advances two seconds with no further events. -/
def c4state : AppState :=
  tick ((onmessage demoBase (audioMsg true 24000 false) 0).1) 2

/-- The `onmessage` handler never writes `errorMessage`, in any of its
branches. -/
lemma onmessage_errorMessage (s : AppState) (m : ServerMessage) (ts : Nat) :
    ((onmessage s m ts).1).errorMessage = s.errorMessage := by
  simp only [onmessage, afterAudio, onInterrupted]
  repeat' split
  all_goals rfl

/-- The audio branch of `onmessage` advances the cursor exactly by the
`enqueueChunk` scheduling step. -/
lemma onmessage_schedules_via_enqueueChunk (s : AppState) (h : Handle) (n ts : Nat) :
    ((onmessage { s with audioContextOut := some h } (audioMsg true n false) ts).1).nextStartTime
      = (enqueueChunk s.nextStartTime s.currentTimeOut ((n : ℚ) / 24000)).2 := by
  simp [onmessage, audioMsg, afterAudio, AudioPayload.duration, enqueueChunk]

/-- Claim C1: for every sequence of playback chunks enqueued at
arbitrary times (chunk `i` observing clock `ct i` and lasting `d i`),
the scheduled start of chunk `i` equals `max nextStartTime currentTime`
at the moment of enqueue, is at least the clock at that enqueue, and
the next chunk starts no earlier than this chunk's end
`start i + d i` — consecutive chunks never overlap. -/
theorem scheduler_ordering (next0 : ℚ) (ct d : ℕ → ℚ) (i : ℕ) :
    schedStart next0 ct d i = max (schedNext next0 ct d i) (ct i) ∧
    ct i ≤ schedStart next0 ct d i ∧
    schedStart next0 ct d i + d i ≤ schedStart next0 ct d (i + 1) := by
  refine ⟨rfl, le_max_right _ _, ?_⟩
  have h : schedStart next0 ct d (i + 1) = max (schedStart next0 ct d i + d i) (ct (i + 1)) := rfl
  rw [h]
  exact le_max_left _ _

/-- Claim C2: on a turn-complete event, the input accumulator appends
exactly one user entry precisely when it is non-empty after trimming
(with the untrimmed text), the output accumulator likewise appends one
model entry, an all-whitespace accumulator appends nothing, and both
accumulators are reset to the empty string. -/
theorem turn_complete_flush (s : AppState) (ts : Nat) :
    ((onmessage s turnOnlyMsg ts).1).transcriptions
      = s.transcriptions
        ++ (if jsTrim s.transcriptionBuffer.1 ≠ "" then
              [{ role := "user", text := s.transcriptionBuffer.1, timestamp := ts }] else [])
        ++ (if jsTrim s.transcriptionBuffer.2 ≠ "" then
              [{ role := "model", text := s.transcriptionBuffer.2, timestamp := ts }] else []) ∧
    ((onmessage s turnOnlyMsg ts).1).transcriptionBuffer = ("", "") := by
  by_cases h1 : jsTrim s.transcriptionBuffer.1 = "" <;>
    by_cases h2 : jsTrim s.transcriptionBuffer.2 = "" <;>
      simp [onmessage, turnOnlyMsg, afterAudio, h1, h2]

/-- Claim C3: after the interruption block, `activeSources` is empty,
the cursor is 0 and the model-speaking flag is false, regardless of
how many chunks were pending; every source that was active has been
stopped (or had already finished, in which case the `stop` error was
swallowed). -/
theorem interruption_clears_state (s : AppState) :
    (onInterrupted s).1.activeSources = [] ∧
    (onInterrupted s).1.nextStartTime = 0 ∧
    (onInterrupted s).1.isModelSpeaking = false ∧
    (onInterrupted s).2.1.length = s.activeSources.length ∧
    ((onInterrupted s).2.1.all fun src => src.stopped || src.finished) = true := by
  refine ⟨rfl, rfl, rfl, by simp [onInterrupted, stopAllGuarded], ?_⟩
  simp only [onInterrupted, stopAllGuarded, List.all_eq_true]
  intro src hsrc
  rcases List.mem_map.1 hsrc with ⟨a, _, rfl⟩
  by_cases hf : a.finished <;> simp [hf]

/-- Claim C4 (counterexample): the claimed invariant fails on a
reachable state.  In `c4state` (one 1-second chunk enqueued at clock 0,
then the clock advanced to 2) the cursor 1 is below the clock 2, and
running teardown (`cleanup`) from that state leaves the cursor at 1
instead of resetting it to zero. -/
theorem cursor_invariant_counterexample :
    ¬ (c4state.currentTimeOut ≤ c4state.nextStartTime) ∧
    (cleanupE c4state).1.nextStartTime ≠ 0 := by
  simp [c4state, demoBase, audioMsg, tick, onmessage, afterAudio, cleanupE,
    enqueueChunk, AudioPayload.duration]

/-- Claim C4 (amended): immediately after an audio-chunk enqueue the
cursor equals `max (old cursor) (clock at enqueue)` plus the chunk's
duration, hence is at least the clock observed at that enqueue and at
least the end of the previously scheduled chunk (the old cursor); the
cursor is zeroed by interruption handling, while session teardown
(`cleanup`) leaves it unchanged. -/
theorem cursor_invariant_amended (s : AppState) (h : Handle) (n ts : Nat) :
    ((onmessage { s with audioContextOut := some h } (audioMsg true n false) ts).1).nextStartTime
        = max s.nextStartTime s.currentTimeOut + (n : ℚ) / 24000 ∧
    s.currentTimeOut
        ≤ ((onmessage { s with audioContextOut := some h } (audioMsg true n false) ts).1).nextStartTime ∧
    s.nextStartTime
        ≤ ((onmessage { s with audioContextOut := some h } (audioMsg true n false) ts).1).nextStartTime ∧
    (onInterrupted s).1.nextStartTime = 0 ∧
    (cleanupE s).1.nextStartTime = s.nextStartTime := by
  have hmain : ((onmessage { s with audioContextOut := some h }
      (audioMsg true n false) ts).1).nextStartTime
      = max s.nextStartTime s.currentTimeOut + (n : ℚ) / 24000 := by
    simp [onmessage, audioMsg, afterAudio, AudioPayload.duration]
  have hd : (0 : ℚ) ≤ (n : ℚ) / 24000 := by positivity
  refine ⟨hmain, ?_, ?_, rfl, rfl⟩
  · rw [hmain]
    calc s.currentTimeOut ≤ max s.nextStartTime s.currentTimeOut := le_max_right _ _
    _ ≤ max s.nextStartTime s.currentTimeOut + (n : ℚ) / 24000 := le_add_of_nonneg_right hd
  · rw [hmain]
    calc s.nextStartTime ≤ max s.nextStartTime s.currentTimeOut := le_max_left _ _
    _ ≤ max s.nextStartTime s.currentTimeOut + (n : ℚ) / 24000 := le_add_of_nonneg_right hd

/-- Claim C5: teardown is total and idempotent.  From any state — in
particular whatever release calls would fail — one `cleanup` nulls the
session, stream and both context handles and empties `activeSources`;
a second `cleanup` returns the same state and swallows no errors at
all. -/
theorem cleanup_idempotent_total (s : AppState) :
    (cleanupE s).1 = { s with sessionRef := none, streamTracks := none, activeSources := [],
                              audioContextIn := none, audioContextOut := none,
                              status := SessionStatus.IDLE, isModelSpeaking := false,
                              hasRecorded := false } ∧
    (cleanupE s).1.sessionRef = none ∧
    (cleanupE s).1.streamTracks = none ∧
    (cleanupE s).1.audioContextIn = none ∧
    (cleanupE s).1.audioContextOut = none ∧
    (cleanupE s).1.activeSources = [] ∧
    cleanupE ((cleanupE s).1) = ((cleanupE s).1, []) :=
  ⟨rfl, rfl, rfl, rfl, rfl, rfl, rfl⟩

/-- Claim C6 (counterexample): the `onerror` handler does not perform
teardown — from a connected state with a live session, stream and a
pending source, it leaves every one of them in place. -/
theorem onerror_no_teardown_counterexample :
    (onerror demoErrState).sessionRef ≠ none ∧
    (onerror demoErrState).streamTracks ≠ none ∧
    (onerror demoErrState).activeSources ≠ [] := by
  decide

/-- Claim C6 (amended): on a transport-level error the status becomes
`ERROR` and a user-facing message is surfaced, but the error handler
releases nothing — session, stream, contexts, sources and cursor are
unchanged; full teardown through the single teardown routine happens
only when the close event (or a manual stop) follows. -/
theorem onerror_amended (s : AppState) :
    (onerror s).status = SessionStatus.ERROR ∧
    (onerror s).errorMessage = some "Voice interface link failed." ∧
    (onerror s).sessionRef = s.sessionRef ∧
    (onerror s).streamTracks = s.streamTracks ∧
    (onerror s).audioContextIn = s.audioContextIn ∧
    (onerror s).audioContextOut = s.audioContextOut ∧
    (onerror s).activeSources = s.activeSources ∧
    (onerror s).nextStartTime = s.nextStartTime ∧
    (onclose (onerror s)).sessionRef = none ∧
    (onclose (onerror s)).streamTracks = none ∧
    (onclose (onerror s)).audioContextIn = none ∧
    (onclose (onerror s)).audioContextOut = none ∧
    (onclose (onerror s)).activeSources = [] :=
  ⟨rfl, rfl, rfl, rfl, rfl, rfl, rfl, rfl, rfl, rfl, rfl, rfl, rfl⟩

/-- Claim C7 (counterexample): a malformed audio payload makes the
decode error escape the `onmessage` handler — there is no `try`/`catch`
around the decode, so the handler's promise rejects (returned flag
`true`). -/
theorem decode_error_escapes_counterexample :
    (onmessage demoBase (audioMsg false 100 false) 0).2 = true := by
  simp [onmessage, demoBase, audioMsg, afterAudio]

/-- Claim C7 (amended): on a malformed audio payload the offending
chunk is dropped (no source scheduled), nothing is torn down (session,
stream, status, transcript all unchanged) and a subsequent valid chunk
is decoded and scheduled normally; but the decode error escapes the
handler as a rejected promise, the rest of that message's processing —
including its `interrupted` flag — is skipped, and the pre-decode
cursor write `max nextStartTime currentTime` persists. -/
theorem decode_error_amended (s : AppState) (h : Handle) (n k : Nat) (b : Bool) (ts ts2 : Nat) :
    (onmessage { s with audioContextOut := some h } (audioMsg false n b) ts).2 = true ∧
    ((onmessage { s with audioContextOut := some h } (audioMsg false n b) ts).1).activeSources
        = s.activeSources ∧
    ((onmessage { s with audioContextOut := some h } (audioMsg false n b) ts).1).sessionRef
        = s.sessionRef ∧
    ((onmessage { s with audioContextOut := some h } (audioMsg false n b) ts).1).streamTracks
        = s.streamTracks ∧
    ((onmessage { s with audioContextOut := some h } (audioMsg false n b) ts).1).status = s.status ∧
    ((onmessage { s with audioContextOut := some h } (audioMsg false n b) ts).1).transcriptions
        = s.transcriptions ∧
    ((onmessage { s with audioContextOut := some h } (audioMsg false n b) ts).1).nextStartTime
        = max s.nextStartTime s.currentTimeOut ∧
    ((onmessage { s with audioContextOut := some h } (audioMsg false n b) ts).1).isModelSpeaking
        = true ∧
    (onmessage ((onmessage { s with audioContextOut := some h } (audioMsg false n b) ts).1)
        (audioMsg true k false) ts2).2 = false ∧
    (onmessage ((onmessage { s with audioContextOut := some h } (audioMsg false n b) ts).1)
        (audioMsg true k false) ts2).1.activeSources
      = s.activeSources ++ [{ id := s.nextSourceId, stopped := false, finished := false }] := by
  simp [onmessage, audioMsg, afterAudio]

/-- Claim C8 (counterexample): the claimed 1/32768 round-trip bound
fails in range: at sample 163832/163835 (≈ 0.99998) the encoded value
is 32766 and the decoded value 32766/32768, an error of about
1.4/32768. -/
theorem roundtrip_counterexample :
    (-1 : ℚ) ≤ 163832/163835 ∧ (163832/163835 : ℚ) ≤ 1 ∧
    ¬ (|163832/163835 - decodeSample (encodeSample (163832/163835))| ≤ 1/32768) := by
  refine ⟨by norm_num, by norm_num, ?_⟩
  have h1 : encodeSample (163832/163835) = 32766 := by
    unfold encodeSample
    norm_num [round_eq]
  rw [h1]
  unfold decodeSample
  norm_num [abs_le]

/-- Claim C8 (amended): for every sample in [-1, 1], decoding the
encoding reproduces the sample with error at most 3/65536
(= 1.5/32768): encoding scales by 32767 and rounds, decoding divides
by 32768, so the worst error is half a rounding step plus the 1/32768
scale mismatch. -/
theorem roundtrip_amended (x : ℚ) (h1 : -1 ≤ x) (h2 : x ≤ 1) :
    |x - decodeSample (encodeSample x)| ≤ 3 / 65536 := by
  have hclamp : min 1 (max (-1) x) = x := by
    rw [max_eq_right h1, min_eq_right h2]
  unfold encodeSample decodeSample
  rw [hclamp]
  have hround : |x * 32767 - (round (x * 32767) : ℚ)| ≤ 1 / 2 := by
    simpa using abs_sub_round (x * 32767)
  have habs : |x| ≤ 1 := abs_le.mpr ⟨h1, h2⟩
  have key : x - (round (x * 32767) : ℚ) / 32768
      = ((x * 32767 - (round (x * 32767) : ℚ)) + x) / 32768 := by ring
  rw [key, abs_div]
  rw [abs_of_pos (by norm_num : (0:ℚ) < 32768)]
  rw [div_le_iff₀ (by norm_num : (0:ℚ) < 32768)]
  calc |x * 32767 - (round (x * 32767) : ℚ) + x|
      ≤ |x * 32767 - (round (x * 32767) : ℚ)| + |x| := abs_add _ _
    _ ≤ 1 / 2 + 1 := add_le_add hround habs
    _ ≤ 3 / 65536 * 32768 := by norm_num

/-- Claim C8 (witness): the amended bound applied at the concrete
sample 1/2. -/
theorem roundtrip_amended_witness :
    |(1/2 : ℚ) - decodeSample (encodeSample (1/2))| ≤ 3 / 65536 :=
  roundtrip_amended (1/2) (by norm_num) (by norm_num)

/-- Claim C9: when a turn-complete event finds both accumulators
non-empty after trimming, exactly two entries are appended in that one
event, the user entry first and the model entry second. -/
theorem turn_entry_order (s : AppState) (ts : Nat)
    (h1 : jsTrim s.transcriptionBuffer.1 ≠ "") (h2 : jsTrim s.transcriptionBuffer.2 ≠ "") :
    ((onmessage s turnOnlyMsg ts).1).transcriptions
      = s.transcriptions
        ++ [{ role := "user", text := s.transcriptionBuffer.1, timestamp := ts },
            { role := "model", text := s.transcriptionBuffer.2, timestamp := ts }] := by
  simp [onmessage, turnOnlyMsg, afterAudio, h1, h2]

/-- Claim C9 (witness): the ordering applied with accumulators
"hello " and "bonjour". -/
theorem turn_entry_order_witness :
    ((onmessage demoTurnState turnOnlyMsg 5).1).transcriptions
      = demoTurnState.transcriptions
        ++ [{ role := "user", text := demoTurnState.transcriptionBuffer.1, timestamp := 5 },
            { role := "model", text := demoTurnState.transcriptionBuffer.2, timestamp := 5 }] :=
  turn_entry_order demoTurnState 5 (by decide) (by decide)

/-- Claim C10: teardown always ends at status `IDLE` with the
model-speaking flag lowered, from any state, and leaves the surfaced
error message untouched — after a transport error, `cleanup` overwrites
the `ERROR` status with `IDLE` while the message stays set; the message
is cleared by the start of the next session, and the message handler
never changes it. -/
theorem cleanup_frame_effects (s : AppState) (m : ServerMessage) (ts : Nat) :
    (cleanupE s).1.status = SessionStatus.IDLE ∧
    (cleanupE s).1.isModelSpeaking = false ∧
    (cleanupE s).1.errorMessage = s.errorMessage ∧
    (cleanupE (onerror s)).1.status = SessionStatus.IDLE ∧
    (cleanupE (onerror s)).1.errorMessage = some "Voice interface link failed." ∧
    (handleStartSessionBegin s).errorMessage = none ∧
    ((onmessage s m ts).1).errorMessage = s.errorMessage :=
  ⟨rfl, rfl, rfl, rfl, rfl, rfl, onmessage_errorMessage s m ts⟩

end VoiceApp
